import Mathlib

/-!
Verification development for the health-portal rule-based analysis engine.

The definitions below are a shallow embedding of the decision logic of the
repository: the rule-based symptom analysis in
`backend/services/mlService.js` (risk scoring, syndrome prediction,
recommendation generation, review flagging) and the outbreak detection
statics of the `DiseaseOutbreak` model. JavaScript numbers are modelled as
rationals, optional vital-sign fields as `Option`, and the database state
used by outbreak detection as explicit lists threaded through the
computation. JavaScript truthiness tests on numbers (`if (x)`) are modelled
as a test against zero where the source performs one.
-/

namespace HealthPortal

/-- Duration units accepted by the symptom schema
(`enum: [minutes, hours, days, weeks]`). -/
inductive DurationUnit where
  | minutes
  | hours
  | days
  | weeks
  deriving DecidableEq, Repr

/-- Duration of a symptom: `{value, unit}` in the symptom schema. -/
structure Duration where
  value : ℚ
  unit : DurationUnit
  deriving DecidableEq, Repr

/-- One submitted symptom: `{name, severity, duration}` from
`symptomRecordSchema.symptoms`. -/
structure Symptom where
  name : String
  severity : ℚ
  duration : Duration
  deriving DecidableEq, Repr

/-- Optional vital signs from `symptomRecordSchema.vitalSigns`; fields the
analysis code never reads (blood pressure, respiratory rate) are included
for fidelity to the schema. -/
structure VitalSigns where
  temperature : Option ℚ := none
  systolic : Option ℚ := none
  diastolic : Option ℚ := none
  heartRate : Option ℚ := none
  respiratoryRate : Option ℚ := none
  oxygenSaturation : Option ℚ := none
  deriving DecidableEq, Repr

/-- The `additionalInfo` flags read by the analysis code
(`recentTravel`, `recentExposure`; both default `false` in the schema). -/
structure AdditionalInfo where
  recentTravel : Bool := false
  recentExposure : Bool := false
  deriving DecidableEq, Repr

/-- A submitted symptom report, restricted to the fields the analysis
pipeline reads. -/
structure SymptomRecord where
  symptoms : List Symptom
  vitalSigns : VitalSigns := {}
  additionalInfo : AdditionalInfo := {}
  deriving DecidableEq, Repr

/-- Schema validity of one symptom: severity in `[1, 10]`
(`min: 1, max: 10`), nonnegative duration (`min: 0`). -/
def Symptom.isValid (s : Symptom) : Bool :=
  1 ≤ s.severity && s.severity ≤ 10 && 0 ≤ s.duration.value

/-- Schema validity of the vital signs: each supplied field within the
schema bounds (`temperature` 90..110, `systolic` 50..250, `diastolic`
30..150, `heartRate` 30..220, `respiratoryRate` 5..60,
`oxygenSaturation` 70..100). -/
def VitalSigns.isValid (v : VitalSigns) : Bool :=
  v.temperature.all (fun t => 90 ≤ t && t ≤ 110) &&
  v.systolic.all (fun x => 50 ≤ x && x ≤ 250) &&
  v.diastolic.all (fun x => 30 ≤ x && x ≤ 150) &&
  v.heartRate.all (fun x => 30 ≤ x && x ≤ 220) &&
  v.respiratoryRate.all (fun x => 5 ≤ x && x ≤ 60) &&
  v.oxygenSaturation.all (fun x => 70 ≤ x && x ≤ 100)

/-- A valid symptom report: a nonempty symptom list whose entries satisfy
the schema bounds, with in-range vital signs. An empty symptom list is
rejected upstream of the analysis. -/
def SymptomRecord.isValid (r : SymptomRecord) : Bool :=
  !r.symptoms.isEmpty && r.symptoms.all Symptom.isValid && r.vitalSigns.isValid

/-- ASCII lowercasing of one character, as `String.prototype.toLowerCase`
acts on the ASCII names used by the analysis code. -/
def charToLower (c : Char) : Char :=
  if 65 ≤ c.toNat ∧ c.toNat ≤ 90 then Char.ofNat (c.toNat + 32) else c

/-- `s.toLowerCase()` on ASCII strings. -/
def jsToLower (s : String) : String :=
  ⟨s.toList.map charToLower⟩

/-- `Math.round` of JavaScript: round half away from zero toward positive
infinity, `Math.round(x) = floor(x + 0.5)`. -/
def jsRound (q : ℚ) : ℤ :=
  (q + 1 / 2).floor

/-- `Math.round(x * 1000) / 1000`: rounding to three decimal places as
performed on `riskScore` and `confidence` in the analysis result. -/
def round3 (q : ℚ) : ℚ :=
  (jsRound (q * 1000) : ℚ) / 1000

/-- The fixed `symptomWeights` table of `analyzeSymptoms`, in source
order. -/
def symptomWeights : List (String × ℚ) :=
  [("fever", 3 / 10),
   ("chest_pain", 4 / 10),
   ("shortness_of_breath", 3 / 10),
   ("dizziness", 2 / 10),
   ("severe_headache", 2 / 10),
   ("cough", 15 / 100),
   ("headache", 1 / 10),
   ("fatigue", 1 / 10),
   ("nausea", 15 / 100),
   ("vomiting", 2 / 10),
   ("diarrhea", 15 / 100),
   ("abdominal_pain", 2 / 10)]

/-- `symptomWeights[symptom]` lookup; an absent name yields 0 (the
JavaScript lookup is `undefined`, which fails the truthiness guard and
contributes nothing). -/
def weightOf (n : String) : ℚ :=
  ((symptomWeights.find? (fun p => p.1 == n)).map (fun p => p.2)).getD 0

/-- The lower-cased symptom-name list of a report:
`symptomRecord.symptoms.map(s => s.name.toLowerCase())`. -/
def lowerNames (r : SymptomRecord) : List String :=
  r.symptoms.map (fun s => jsToLower s.name)

/-- The symptom part of the risk score: base risk `0.1`, then
`riskScore += symptomWeights[symptom]` for each name in submission order
(no deduplication in the source). -/
def symptomRisk (names : List String) : ℚ :=
  names.foldl (fun acc n => acc + weightOf n) (1 / 10)

/-- Temperature penalty of `analyzeSymptoms`:
`if (vitals.temperature?.value) { if (value > 102) riskScore += 0.2 }`.
The outer truthiness guard is the test against zero. -/
def tempPenalty (v : Option ℚ) : ℚ :=
  match v with
  | some t => if t ≠ 0 then (if 102 < t then 2 / 10 else 0) else 0
  | none => 0

/-- Heart-rate penalty: `if (vitals.heartRate) { if (> 100) += 0.1 }`. -/
def hrPenalty (v : Option ℚ) : ℚ :=
  match v with
  | some h => if h ≠ 0 then (if 100 < h then 1 / 10 else 0) else 0
  | none => 0

/-- Oxygen-saturation penalty:
`if (vitals.oxygenSaturation) { if (< 95) += 0.3 }`. -/
def o2Penalty (v : Option ℚ) : ℚ :=
  match v with
  | some x => if x ≠ 0 then (if x < 95 then 3 / 10 else 0) else 0
  | none => 0

/-- The capped risk score of `analyzeSymptoms`: symptom contributions plus
vital-sign penalties, then `Math.min(riskScore, 1.0)`. -/
def rawRiskScore (r : SymptomRecord) : ℚ :=
  min (symptomRisk (lowerNames r)
        + tempPenalty r.vitalSigns.temperature
        + hrPenalty r.vitalSigns.heartRate
        + o2Penalty r.vitalSigns.oxygenSaturation) 1

/-- The fixed `syndromeRules` table of `analyzeSymptoms`, in source
order: category name paired with its trigger symptom list. -/
def syndromeRules : List (String × List String) :=
  [("respiratory_infection", ["fever", "cough", "shortness_of_breath", "chest_pain"]),
   ("gastrointestinal", ["nausea", "vomiting", "diarrhea", "abdominal_pain"]),
   ("flu", ["fever", "chills", "muscle_pain", "fatigue", "body_aches"]),
   ("neurological", ["headache", "dizziness", "neck_stiffness", "severe_headache"]),
   ("cardiac", ["chest_pain", "heart_palpitations", "shortness_of_breath"])]

/-- `triggers.filter(trigger => symptomNames.includes(trigger)).length`. -/
def matchCount (names triggers : List String) : ℕ :=
  (triggers.filter (fun t => names.contains t)).length

/-- The syndrome-prediction loop of `analyzeSymptoms`: walk the rule list
in order; when a category has at least one trigger matched, stop at it if
it has at least two matches, or at least one match for the cardiac
category; otherwise continue; default `"unknown"`. -/
def predictFrom (names : List String) : List (String × List String) → String
  | [] => "unknown"
  | (syn, triggers) :: rest =>
    let m := matchCount names triggers
    if 0 < m then
      if 2 ≤ m ∨ (syn = "cardiac" ∧ 1 ≤ m) then syn
      else predictFrom names rest
    else predictFrom names rest

/-- `predictedSyndrome` as computed by `analyzeSymptoms` from the
lower-cased symptom names. -/
def predictedSyndrome (names : List String) : String :=
  predictFrom names syndromeRules

/-- Whether the character list `pat` occurs contiguously in `l`
(JavaScript `String.prototype.includes` on the underlying characters). -/
def listStartsWith : List Char → List Char → Bool
  | _, [] => true
  | [], _ :: _ => false
  | a :: as, b :: bs => a == b && listStartsWith as bs

/-- Substring occurrence test used to model `name.includes(...)`. -/
def listHasSub : List Char → List Char → Bool
  | [], pat => pat.isEmpty
  | a :: as, pat => listStartsWith (a :: as) pat || listHasSub as pat

/-- `s.includes(pat)` of JavaScript strings. -/
def strIncludes (s pat : String) : Bool :=
  listHasSub s.toList pat.toList

/-- The risk-tier block of `generateRecommendations`: exactly one
two-line block chosen by the boundaries 0.8 / 0.6 / 0.4. -/
def riskBlock (riskScore : ℚ) : List String :=
  if 8 / 10 ≤ riskScore then
    ["Seek immediate medical attention", "Consider emergency room visit"]
  else if 6 / 10 ≤ riskScore then
    ["Schedule urgent appointment with healthcare provider", "Monitor symptoms closely"]
  else if 4 / 10 ≤ riskScore then
    ["Schedule routine appointment with healthcare provider", "Continue monitoring symptoms"]
  else
    ["Continue self-care and monitoring", "Seek medical attention if symptoms worsen"]

/-- The syndrome-specific block of `generateRecommendations`: the
`switch (syndrome.toLowerCase())` with cases `"respiratory infection"`,
`"gastrointestinal"`, `"fever"` and a generic default line. -/
def syndromeBlock (syndrome : String) : List String :=
  let s := jsToLower syndrome
  if s = "respiratory infection" then
    ["Rest and stay hydrated", "Use humidifier if available",
     "Avoid close contact with others"]
  else if s = "gastrointestinal" then
    ["Maintain hydration", "Follow BRAT diet (bananas, rice, applesauce, toast)",
     "Avoid dairy and fatty foods"]
  else if s = "fever" then
    ["Monitor temperature regularly", "Stay hydrated",
     "Use fever-reducing medications as directed"]
  else
    ["Follow general illness care guidelines"]

/-- `symptomRecord.symptoms.some(s => s.name.toLowerCase().includes("fever")
|| ...includes("temperature"))`. -/
def hasFever (r : SymptomRecord) : Bool :=
  r.symptoms.any (fun s =>
    strIncludes (jsToLower s.name) ("fever") || strIncludes (jsToLower s.name) ("temperature"))

/-- `symptomRecord.symptoms.some(s => s.name.toLowerCase().includes("cough"))`. -/
def hasCough (r : SymptomRecord) : Bool :=
  r.symptoms.any (fun s => strIncludes (jsToLower s.name) ("cough"))

/-- `generateRecommendations(riskScore, syndrome, symptomRecord)`: the
risk-tier block, then the syndrome block, then the conditional
fever-monitoring line and cough-care lines, in source push order. -/
def generateRecommendations (riskScore : ℚ) (syndrome : String)
    (r : SymptomRecord) : List String :=
  riskBlock riskScore ++ syndromeBlock syndrome ++
  (if hasFever r then ["Monitor temperature every 4 hours"] else []) ++
  (if hasCough r then ["Use cough suppressants as needed", "Avoid irritants like smoke"] else [])

/-- `symptomRecord.symptoms.filter(s => s.severity >= 8).length`. -/
def severeCount (r : SymptomRecord) : ℕ :=
  (r.symptoms.filter (fun s => 8 ≤ s.severity)).length

/-- `vitals.temperature?.value > 103` of `shouldFlagForReview`; comparing
`undefined` is false. -/
def tempFlag (v : Option ℚ) : Bool :=
  match v with
  | some t => decide (103 < t)
  | none => false

/-- `vitals.heartRate > 100` of `shouldFlagForReview`. -/
def hrFlag (v : Option ℚ) : Bool :=
  match v with
  | some h => decide (100 < h)
  | none => false

/-- `vitals.oxygenSaturation < 95` of `shouldFlagForReview`. -/
def o2Flag (v : Option ℚ) : Bool :=
  match v with
  | some x => decide (x < 95)
  | none => false

/-- `shouldFlagForReview(riskScore, confidence, symptomRecord)`: the
sequence of early-return checks of the source. -/
def shouldFlagForReview (riskScore confidence : ℚ) (r : SymptomRecord) : Bool :=
  if 7 / 10 ≤ riskScore then true
  else if confidence < 3 / 10 then true
  else if 2 ≤ severeCount r then true
  else if r.additionalInfo.recentTravel || r.additionalInfo.recentExposure then true
  else if tempFlag r.vitalSigns.temperature || hrFlag r.vitalSigns.heartRate
          || o2Flag r.vitalSigns.oxygenSaturation then true
  else false

/-- The analysis record produced by `analyzeSymptoms`, restricted to its
deterministic data fields (the wall-clock timestamp and model version tag
are omitted). -/
structure AnalysisResult where
  riskScore : ℚ
  predictedSyndrome : String
  confidence : ℚ
  recommendations : List String
  flaggedForReview : Bool
  deriving DecidableEq, Repr

/-- `analyzeSymptoms(symptomRecord)` in rule-based mode, with the
`Math.random()` draw made explicit as the argument `rand`:
`confidence = 0.6 + rand * 0.3`; the risk score is capped at 1.0 before
being passed to the recommendation generator and the review-flagging
policy, and rounded to three decimals only in the returned record. -/
def analyzeSymptoms (rand : ℚ) (r : SymptomRecord) : AnalysisResult :=
  let names := lowerNames r
  let riskScore := min (symptomRisk names
        + tempPenalty r.vitalSigns.temperature
        + hrPenalty r.vitalSigns.heartRate
        + o2Penalty r.vitalSigns.oxygenSaturation) 1
  let syndrome := predictFrom names syndromeRules
  let confidence := 6 / 10 + rand * (3 / 10)
  { riskScore := round3 riskScore
    predictedSyndrome := syndrome
    confidence := round3 confidence
    recommendations := generateRecommendations riskScore syndrome r
    flaggedForReview := shouldFlagForReview riskScore confidence r }

/-! ### Outbreak detection (`DiseaseOutbreak.detectNewOutbreaks`)

Dates are modelled as integers (days); `now` and the stored records are
explicit arguments, and the persisted outbreak collection is threaded
through the detection loop as an explicit list. -/

/-- The `status` enum of the `DiseaseCase` schema. -/
inductive CaseStatus where
  | detected
  | confirmed
  | treated
  | resolved
  | falsePositive
  deriving DecidableEq, Repr

/-- A persisted `DiseaseCase` record, restricted to the fields outbreak
detection reads. -/
structure DiseaseCase where
  id : ℕ
  diseaseName : String
  location : String
  caseDate : ℤ
  status : CaseStatus
  isEmergency : Bool
  severity : String
  confidence : ℚ
  deriving DecidableEq, Repr

/-- A persisted `DiseaseOutbreak` record, restricted to the fields
detection writes and reads (`isActive` defaults to `true`, `status` to
`detected` in the schema). -/
structure Outbreak where
  diseaseName : String
  location : String
  startDate : ℤ
  totalCases : ℕ
  emergencyCases : ℕ
  criticalCases : ℕ
  averageConfidence : ℚ
  threshold : ℕ
  timeWindow : ℕ
  severity : String
  affectedPatients : List ℕ
  status : String := "detected"
  isActive : Bool := true
  deriving DecidableEq, Repr

/-- One `$group` result of the detection aggregation. -/
structure OutbreakGroup where
  diseaseName : String
  location : String
  caseCount : ℕ
  emergencyCases : ℕ
  criticalCases : ℕ
  averageConfidence : ℚ
  firstCaseDate : ℤ
  lastCaseDate : ℤ
  caseIds : List ℕ
  deriving DecidableEq, Repr

/-- Minimum of a date list (`$min`); 0 for the empty list, which the
aggregation never produces. -/
def listMin : List ℤ → ℤ
  | [] => 0
  | [a] => a
  | a :: b :: rest => min a (listMin (b :: rest))

/-- Maximum of a date list (`$max`). -/
def listMax : List ℤ → ℤ
  | [] => 0
  | [a] => a
  | a :: b :: rest => max a (listMax (b :: rest))

/-- The `$match` stage of `detectNewOutbreaks`: `caseDate ≥ startDate`
(where `startDate = now − timeWindow` days; the source states no upper
bound) and `status ∈ {detected, confirmed}`. -/
def consideredCases (now : ℤ) (timeWindow : ℕ) (cases : List DiseaseCase) :
    List DiseaseCase :=
  cases.filter (fun c =>
    decide (now - timeWindow ≤ c.caseDate) &&
    (c.status == CaseStatus.detected || c.status == CaseStatus.confirmed))

/-- The members of the `(diseaseName, location)` group of `key`. -/
def groupMembers (key : String × String) (cases : List DiseaseCase) :
    List DiseaseCase :=
  cases.filter (fun c => c.diseaseName == key.1 && c.location == key.2)

/-- The distinct `(diseaseName, location)` keys occurring among the
matched cases (the `_id` values of the `$group` stage). -/
def groupKeys (cases : List DiseaseCase) : List (String × String) :=
  (cases.map (fun c => (c.diseaseName, c.location))).dedup

/-- The accumulators of the `$group` stage for one key. -/
def mkGroup (key : String × String) (cases : List DiseaseCase) : OutbreakGroup :=
  let members := groupMembers key cases
  { diseaseName := key.1
    location := key.2
    caseCount := members.length
    emergencyCases := (members.filter (fun c => c.isEmergency)).length
    criticalCases := (members.filter (fun c => c.severity == "critical")).length
    averageConfidence := ((members.map (fun c => c.confidence)).sum) / (members.length : ℚ)
    firstCaseDate := listMin (members.map (fun c => c.caseDate))
    lastCaseDate := listMax (members.map (fun c => c.caseDate))
    caseIds := members.map (fun c => c.id) }

/-- The aggregation pipeline of `detectNewOutbreaks`: match, group, and
keep the groups with `caseCount ≥ threshold`. -/
def potentialOutbreaks (now : ℤ) (threshold timeWindow : ℕ)
    (cases : List DiseaseCase) : List OutbreakGroup :=
  let matched := consideredCases now timeWindow cases
  ((groupKeys matched).map (fun k => mkGroup k matched)).filter
    (fun g => threshold ≤ g.caseCount)

/-- The severity assignment for a new outbreak: `critical` if
`caseCount ≥ 20` or `emergencyCases ≥ 5`, else `high` if `caseCount ≥ 10`
or `emergencyCases ≥ 3`, else `medium` if `caseCount ≥ 5`, else `low`. -/
def outbreakSeverity (caseCount emergencyCases : ℕ) : String :=
  if 20 ≤ caseCount ∨ 5 ≤ emergencyCases then "critical"
  else if 10 ≤ caseCount ∨ 3 ≤ emergencyCases then "high"
  else if 5 ≤ caseCount then "medium"
  else "low"

/-- The `new this({...})` document built for a qualifying group. -/
def mkOutbreak (threshold timeWindow : ℕ) (g : OutbreakGroup) : Outbreak :=
  { diseaseName := g.diseaseName
    location := g.location
    startDate := g.firstCaseDate
    totalCases := g.caseCount
    emergencyCases := g.emergencyCases
    criticalCases := g.criticalCases
    averageConfidence := g.averageConfidence
    threshold := threshold
    timeWindow := timeWindow
    severity := outbreakSeverity g.caseCount g.emergencyCases
    affectedPatients := g.caseIds }

/-- `findOne({diseaseName, location, isActive: true})` against the current
outbreak collection. -/
def hasActiveOutbreak (obs : List Outbreak) (d l : String) : Bool :=
  obs.any (fun o => o.diseaseName == d && o.location == l && o.isActive)

/-- The creation loop of `detectNewOutbreaks`: for each qualifying group
in order, skip it when an active outbreak for its pair already exists in
the current collection, otherwise save a new outbreak (appending it to
the collection) and record it among the returned new outbreaks. Returns
`(newOutbreaks, finalCollection)`. -/
def detectLoop (threshold timeWindow : ℕ) :
    List OutbreakGroup → List Outbreak → List Outbreak × List Outbreak
  | [], obs => ([], obs)
  | g :: rest, obs =>
    if hasActiveOutbreak obs g.diseaseName g.location then
      detectLoop threshold timeWindow rest obs
    else
      let ob := mkOutbreak threshold timeWindow g
      let r := detectLoop threshold timeWindow rest (obs ++ [ob])
      (ob :: r.1, r.2)

/-- `detectNewOutbreaks(threshold, timeWindow)` run at time `now` against
the stored cases and outbreak collection: returns the list of newly
created outbreaks and the updated outbreak collection. -/
def detectNewOutbreaks (now : ℤ) (threshold timeWindow : ℕ)
    (cases : List DiseaseCase) (obs : List Outbreak) :
    List Outbreak × List Outbreak :=
  detectLoop threshold timeWindow (potentialOutbreaks now threshold timeWindow cases) obs

/-! ### The syndrome classifier as a first-match rule -/

/-- The match threshold stated by the specification: 1 trigger for the
cardiac category, 2 for every other category. -/
def claimThreshold (cat : String) : ℕ :=
  if cat = "cardiac" then 1 else 2

/-- The specification reading of a category match: at least
`claimThreshold` of its triggers present in the input. -/
def claimMatches (names : List String) (c : String × List String) : Bool :=
  claimThreshold c.1 ≤ matchCount names c.2

/-- The classifier as the specification words it: the first category of
the fixed ordered list whose trigger count reaches its threshold,
defaulting to `"unknown"`. -/
def claimSyndrome (names : List String) : String :=
  ((syndromeRules.find? (claimMatches names)).map (fun c => c.1)).getD "unknown"

theorem claimMatches_iff (names triggers : List String) (syn : String) :
    claimMatches names (syn, triggers) = true ↔
      (2 ≤ matchCount names triggers ∨
        (syn = "cardiac" ∧ 1 ≤ matchCount names triggers)) := by
  simp only [claimMatches, claimThreshold, decide_eq_true_eq]
  by_cases hc : syn = "cardiac"
  · subst hc
    rw [if_pos rfl]
    constructor
    · intro h
      exact Or.inr ⟨rfl, h⟩
    · rintro (h | ⟨-, h⟩) <;> omega
  · rw [if_neg hc]
    constructor
    · exact Or.inl
    · rintro (h | ⟨h, -⟩)
      · exact h
      · exact absurd h hc

theorem predictFrom_eq_find (names : List String) :
    ∀ l : List (String × List String),
      predictFrom names l =
        ((l.find? (claimMatches names)).map (fun c => c.1)).getD "unknown" := by
  intro l
  induction l with
  | nil => rfl
  | cons c rest ih =>
    obtain ⟨syn, triggers⟩ := c
    by_cases hm : claimMatches names (syn, triggers) = true
    · rw [List.find?_cons_of_pos _ hm]
      have hcond := (claimMatches_iff names triggers syn).mp hm
      have h0 : 0 < matchCount names triggers := by
        rcases hcond with h | ⟨-, h⟩ <;> omega
      simp only [predictFrom]
      rw [if_pos h0, if_pos hcond]
      rfl
    · rw [List.find?_cons_of_neg _ hm]
      have hcond : ¬ (2 ≤ matchCount names triggers ∨
          (syn = "cardiac" ∧ 1 ≤ matchCount names triggers)) :=
        fun h => hm ((claimMatches_iff names triggers syn).mpr h)
      simp only [predictFrom]
      by_cases h0 : 0 < matchCount names triggers
      · rw [if_pos h0, if_neg hcond]
        exact ih
      · rw [if_neg h0]
        exact ih

/-- C3: the classifier walks the categories in the fixed source order
respiratory_infection, gastrointestinal, flu, neurological, cardiac and
returns the first whose present-trigger count is at least 2 (at least 1
for cardiac), else `"unknown"`; in particular a lone chest_pain is
classified cardiac, and nausea with vomiting gastrointestinal. -/
theorem c3_classifier_first_match :
    (∀ names : List String, predictedSyndrome names = claimSyndrome names) ∧
    predictedSyndrome ["chest_pain"] = "cardiac" ∧
    predictedSyndrome ["nausea", "vomiting"] = "gastrointestinal" := by
  refine ⟨fun names => predictFrom_eq_find names syndromeRules, ?_, ?_⟩ <;> decide

/-- Every classifier output is `"unknown"` or one of the five category
names of the rule table. -/
theorem predictFrom_mem (names : List String) :
    ∀ l : List (String × List String),
      predictFrom names l ∈ "unknown" :: l.map (fun c => c.1) := by
  intro l
  induction l with
  | nil => simp [predictFrom]
  | cons c rest ih =>
    obtain ⟨syn, triggers⟩ := c
    simp only [predictFrom]
    split_ifs with h0 hcond
    · simp
    · simpa [or_assoc] using Or.imp_right Or.inr (List.mem_cons.mp ih)
    · simpa [or_assoc] using Or.imp_right Or.inr (List.mem_cons.mp ih)

/-- C10: whenever the classifier output is not `"gastrointestinal"`, the
syndrome block appended by `generateRecommendations` is the generic
fallback line; moreover the classifier never produces the dictionary keys
`"respiratory infection"` or `"fever"`, so the respiratory-infection and
fever care blocks are unreachable from the analysis pipeline. -/
theorem c10_unreachable_syndrome_blocks :
    (∀ (rand : ℚ) (r : SymptomRecord),
      (analyzeSymptoms rand r).predictedSyndrome ≠ "gastrointestinal" →
        syndromeBlock (analyzeSymptoms rand r).predictedSyndrome =
          ["Follow general illness care guidelines"]) ∧
    (∀ names : List String,
      predictedSyndrome names ≠ "respiratory infection" ∧
      predictedSyndrome names ≠ "fever") ∧
    syndromeBlock ("respiratory_infection") = ["Follow general illness care guidelines"] := by
  have hmem : ∀ names : List String,
      predictedSyndrome names = "respiratory_infection" ∨
      predictedSyndrome names = "gastrointestinal" ∨
      predictedSyndrome names = "flu" ∨
      predictedSyndrome names = "neurological" ∨
      predictedSyndrome names = "cardiac" ∨
      predictedSyndrome names = "unknown" := by
    intro names
    have := predictFrom_mem names syndromeRules
    simp only [syndromeRules, List.map, List.mem_cons, List.not_mem_nil, or_false,
      predictedSyndrome] at this ⊢
    tauto
  have hpipe : ∀ (rand : ℚ) (r : SymptomRecord),
      (analyzeSymptoms rand r).predictedSyndrome = predictedSyndrome (lowerNames r) := by
    intro rand r
    rfl
  refine ⟨?_, ?_, by decide⟩
  · intro rand r hne
    rw [hpipe] at hne ⊢
    rcases hmem (lowerNames r) with h | h | h | h | h | h <;>
      first
        | (exact absurd h hne)
        | (rw [h]; decide)
  · intro names
    rcases hmem names with h | h | h | h | h | h <;> rw [h] <;> exact ⟨by decide, by decide⟩

/-! ### The review-flagging policy -/

theorem tempFlag_iff (v : Option ℚ) :
    tempFlag v = true ↔ ∃ t, v = some t ∧ 103 < t := by
  cases v <;> simp [tempFlag]

theorem hrFlag_iff (v : Option ℚ) :
    hrFlag v = true ↔ ∃ h, v = some h ∧ 100 < h := by
  cases v <;> simp [hrFlag]

theorem o2Flag_iff (v : Option ℚ) :
    o2Flag v = true ↔ ∃ x, v = some x ∧ x < 95 := by
  cases v <;> simp [o2Flag]

/-- The seven flagging predicates of the specification, as a single
proposition. -/
def FlagSpec (riskScore confidence : ℚ) (r : SymptomRecord) : Prop :=
  7 / 10 ≤ riskScore ∨
  confidence < 3 / 10 ∨
  2 ≤ severeCount r ∨
  (r.additionalInfo.recentTravel = true ∨ r.additionalInfo.recentExposure = true) ∨
  (∃ t, r.vitalSigns.temperature = some t ∧ 103 < t) ∨
  (∃ h, r.vitalSigns.heartRate = some h ∧ 100 < h) ∨
  (∃ x, r.vitalSigns.oxygenSaturation = some x ∧ x < 95)

/-- C6: `shouldFlagForReview` is true exactly when one of the seven
predicates holds; in particular an oxygen saturation of 90 always flags,
and the flag is false when all seven predicates fail. -/
theorem c6_flag_iff :
    (∀ (riskScore confidence : ℚ) (r : SymptomRecord),
      shouldFlagForReview riskScore confidence r = true ↔
        FlagSpec riskScore confidence r) ∧
    (∀ (riskScore confidence : ℚ) (r : SymptomRecord),
      r.vitalSigns.oxygenSaturation = some 90 →
        shouldFlagForReview riskScore confidence r = true) ∧
    (∀ (riskScore confidence : ℚ) (r : SymptomRecord),
      ¬ FlagSpec riskScore confidence r →
        shouldFlagForReview riskScore confidence r = false) := by
  have main : ∀ (riskScore confidence : ℚ) (r : SymptomRecord),
      shouldFlagForReview riskScore confidence r = true ↔
        FlagSpec riskScore confidence r := by
    intro riskScore confidence r
    unfold shouldFlagForReview FlagSpec
    constructor
    · intro htrue
      split_ifs at htrue with h1 h2 h3 h4 h5
      · exact Or.inl h1
      · exact Or.inr (Or.inl h2)
      · exact Or.inr (Or.inr (Or.inl h3))
      · exact Or.inr (Or.inr (Or.inr (Or.inl (by simpa using h4))))
      · have h5' : tempFlag r.vitalSigns.temperature = true ∨
            hrFlag r.vitalSigns.heartRate = true ∨
            o2Flag r.vitalSigns.oxygenSaturation = true := by
          simpa [or_assoc] using h5
        rcases h5' with h | h | h
        · exact Or.inr (Or.inr (Or.inr (Or.inr (Or.inl ((tempFlag_iff _).mp h)))))
        · exact Or.inr (Or.inr (Or.inr (Or.inr (Or.inr (Or.inl ((hrFlag_iff _).mp h))))))
        · exact Or.inr (Or.inr (Or.inr (Or.inr (Or.inr (Or.inr ((o2Flag_iff _).mp h))))))
    · intro hspec
      split_ifs with h1 h2 h3 h4 h5
      · rfl
      · rfl
      · rfl
      · rfl
      · rfl
      · exfalso
        rcases hspec with h | h | h | h | h | h | h
        · exact h1 h
        · exact h2 h
        · exact h3 h
        · exact h4 (by rcases h with h | h <;> simp [h])
        · exact h5 (by simp [(tempFlag_iff _).mpr h])
        · exact h5 (by simp [(hrFlag_iff _).mpr h])
        · exact h5 (by simp [(o2Flag_iff _).mpr h])
  refine ⟨main, ?_, ?_⟩
  · intro riskScore confidence r h
    exact (main riskScore confidence r).mpr
      (Or.inr (Or.inr (Or.inr (Or.inr (Or.inr (Or.inr ⟨90, h, by norm_num⟩))))))
  · intro riskScore confidence r h
    rcases hb : shouldFlagForReview riskScore confidence r with _ | _
    · rfl
    · exact absurd ((main riskScore confidence r).mp hb) h

/-! ### The recommendation generator -/

/-- C7: the recommendation list is never empty and always begins with the
two-line risk-tier block selected by the boundaries 0.8 / 0.6 / 0.4; in
particular at riskScore 0.85 it begins with the immediate-attention and
emergency-room lines. -/
theorem c7_recommendation_tiers :
    (∀ (riskScore : ℚ) (syndrome : String) (r : SymptomRecord),
      generateRecommendations riskScore syndrome r ≠ []) ∧
    (∀ (riskScore : ℚ) (syndrome : String) (r : SymptomRecord),
      (8 / 10 ≤ riskScore →
        (generateRecommendations riskScore syndrome r).take 2 =
          ["Seek immediate medical attention", "Consider emergency room visit"]) ∧
      (¬ 8 / 10 ≤ riskScore → 6 / 10 ≤ riskScore →
        (generateRecommendations riskScore syndrome r).take 2 =
          ["Schedule urgent appointment with healthcare provider",
           "Monitor symptoms closely"]) ∧
      (¬ 6 / 10 ≤ riskScore → 4 / 10 ≤ riskScore →
        (generateRecommendations riskScore syndrome r).take 2 =
          ["Schedule routine appointment with healthcare provider",
           "Continue monitoring symptoms"]) ∧
      (¬ 4 / 10 ≤ riskScore →
        (generateRecommendations riskScore syndrome r).take 2 =
          ["Continue self-care and monitoring",
           "Seek medical attention if symptoms worsen"])) ∧
    (∀ (syndrome : String) (r : SymptomRecord),
      (generateRecommendations (85 / 100) syndrome r).take 2 =
        ["Seek immediate medical attention", "Consider emergency room visit"]) := by
  have htake : ∀ (riskScore : ℚ) (syndrome : String) (r : SymptomRecord),
      (generateRecommendations riskScore syndrome r).take 2 = riskBlock riskScore := by
    intro riskScore syndrome r
    unfold generateRecommendations riskBlock
    split_ifs <;> rfl
  refine ⟨?_, ?_, ?_⟩
  · intro riskScore syndrome r
    unfold generateRecommendations riskBlock
    split_ifs <;> simp
  · intro riskScore syndrome r
    refine ⟨?_, ?_, ?_, ?_⟩ <;> intro h <;> try intro h'
    · rw [htake]
      unfold riskBlock
      rw [if_pos h]
    · rw [htake]
      unfold riskBlock
      rw [if_neg h, if_pos h']
    · rw [htake]
      unfold riskBlock
      rw [if_neg (fun hc => h (by linarith)), if_neg h, if_pos h']
    · rw [htake]
      unfold riskBlock
      rw [if_neg (fun hc => h (by linarith)), if_neg (fun hc => h (by linarith)), if_neg h]
  · intro syndrome r
    rw [htake]
    unfold riskBlock
    rw [if_pos (by norm_num)]

/-! ### Risk-score arithmetic -/

theorem foldl_weight (l : List String) :
    ∀ init : ℚ, l.foldl (fun acc n => acc + weightOf n) init =
      init + (l.map weightOf).sum := by
  induction l with
  | nil =>
    intro init
    rw [List.foldl_nil, List.map_nil, List.sum_nil, add_zero]
  | cons n rest ih =>
    intro init
    simp only [List.foldl_cons, List.map_cons, List.sum_cons, ih]
    ring

theorem weightOf_nonneg (n : String) : 0 ≤ weightOf n := by
  unfold weightOf
  cases h : symptomWeights.find? (fun p => p.1 == n) with
  | none => simp
  | some p =>
    have hp := List.mem_of_find?_eq_some h
    simp only [Option.map_some', Option.getD_some]
    fin_cases hp <;> norm_num

theorem symptomRisk_eq (names : List String) :
    symptomRisk names = 1 / 10 + (names.map weightOf).sum :=
  foldl_weight names (1 / 10)

theorem symptomRisk_ge (names : List String) : 1 / 10 ≤ symptomRisk names := by
  rw [symptomRisk_eq]
  have : 0 ≤ (names.map weightOf).sum :=
    List.sum_nonneg (by
      intro x hx
      obtain ⟨n, -, rfl⟩ := List.mem_map.mp hx
      exact weightOf_nonneg n)
  linarith

theorem tempPenalty_nonneg (v : Option ℚ) : 0 ≤ tempPenalty v := by
  cases v with
  | none => simp [tempPenalty]
  | some t =>
    simp only [tempPenalty]
    split_ifs <;> norm_num

theorem hrPenalty_nonneg (v : Option ℚ) : 0 ≤ hrPenalty v := by
  cases v with
  | none => simp [hrPenalty]
  | some t =>
    simp only [hrPenalty]
    split_ifs <;> norm_num

theorem o2Penalty_nonneg (v : Option ℚ) : 0 ≤ o2Penalty v := by
  cases v with
  | none => simp [o2Penalty]
  | some t =>
    simp only [o2Penalty]
    split_ifs <;> norm_num

theorem ratFloor_eq (q : ℚ) : q.floor = ⌊q⌋ := by
  rw [Rat.floor_def', Rat.floor_def]

theorem round3_bounds (q : ℚ) (h0 : 0 ≤ q) (h1 : q ≤ 1) :
    0 ≤ round3 q ∧ round3 q ≤ 1 := by
  unfold round3 jsRound
  rw [ratFloor_eq]
  have hlow : (0 : ℤ) ≤ ⌊q * 1000 + 1 / 2⌋ := by
    apply Int.floor_nonneg.mpr
    linarith
  have hup : ⌊q * 1000 + 1 / 2⌋ ≤ 1000 := by
    have hle : (⌊q * 1000 + 1 / 2⌋ : ℚ) ≤ q * 1000 + 1 / 2 := Int.floor_le _
    have hlt : (⌊q * 1000 + 1 / 2⌋ : ℚ) < 1001 := by linarith
    have hz : ⌊q * 1000 + 1 / 2⌋ < (1001 : ℤ) := by exact_mod_cast hlt
    omega
  constructor
  · apply div_nonneg _ (by norm_num)
    exact_mod_cast hlow
  · rw [div_le_one (by norm_num)]
    exact_mod_cast hup

theorem isValid_vitals (r : SymptomRecord) (hv : r.isValid = true) :
    (∀ t, r.vitalSigns.temperature = some t → 90 ≤ t ∧ t ≤ 110) ∧
    (∀ x, r.vitalSigns.heartRate = some x → 30 ≤ x ∧ x ≤ 220) ∧
    (∀ x, r.vitalSigns.oxygenSaturation = some x → 70 ≤ x ∧ x ≤ 100) := by
  have hvs : r.vitalSigns.isValid = true := by
    unfold SymptomRecord.isValid at hv
    simp only [Bool.and_eq_true] at hv
    exact hv.2
  unfold VitalSigns.isValid at hvs
  simp only [Bool.and_eq_true] at hvs
  obtain ⟨⟨⟨⟨⟨hT, hS⟩, hD⟩, hH⟩, hR⟩, hO⟩ := hvs
  refine ⟨?_, ?_, ?_⟩
  · intro t ht
    rw [ht] at hT
    simpa [Option.all_some, Bool.and_eq_true, decide_eq_true_eq] using hT
  · intro x hx
    rw [hx] at hH
    simpa [Option.all_some, Bool.and_eq_true, decide_eq_true_eq] using hH
  · intro x hx
    rw [hx] at hO
    simpa [Option.all_some, Bool.and_eq_true, decide_eq_true_eq] using hO

/-- C8: on a valid report, and for any random draw in `[0, 1)`, the
produced risk score and confidence both lie in `[0, 1]`. -/
theorem c8_clamping (rand : ℚ) (r : SymptomRecord)
    (h0 : 0 ≤ rand) (h1 : rand < 1) (hv : r.isValid = true) :
    0 ≤ (analyzeSymptoms rand r).riskScore ∧
    (analyzeSymptoms rand r).riskScore ≤ 1 ∧
    0 ≤ (analyzeSymptoms rand r).confidence ∧
    (analyzeSymptoms rand r).confidence ≤ 1 := by
  have hraw0 : 0 ≤ rawRiskScore r := by
    apply le_min _ (by norm_num)
    have := symptomRisk_ge (lowerNames r)
    have := tempPenalty_nonneg r.vitalSigns.temperature
    have := hrPenalty_nonneg r.vitalSigns.heartRate
    have := o2Penalty_nonneg r.vitalSigns.oxygenSaturation
    linarith
  have hraw1 : rawRiskScore r ≤ 1 := min_le_right _ _
  have hrb := round3_bounds (rawRiskScore r) hraw0 hraw1
  have hc0 : 0 ≤ 6 / 10 + rand * (3 / 10) := by
    have := mul_nonneg h0 (show (0 : ℚ) ≤ 3 / 10 by norm_num)
    linarith
  have hc1 : 6 / 10 + rand * (3 / 10) ≤ 1 := by
    have := mul_lt_mul_of_pos_right h1 (show (0 : ℚ) < 3 / 10 by norm_num)
    linarith
  have hcb := round3_bounds (6 / 10 + rand * (3 / 10)) hc0 hc1
  exact ⟨hrb.1, hrb.2, hcb.1, hcb.2⟩

/-- A valid one-symptom report used to instantiate theorems with
hypotheses. -/
def feverRec : SymptomRecord :=
  { symptoms := [⟨"fever", 5, ⟨1, DurationUnit.days⟩⟩] }

theorem c8_clamping_witness :
    0 ≤ (analyzeSymptoms 0 feverRec).riskScore ∧
    (analyzeSymptoms 0 feverRec).riskScore ≤ 1 ∧
    0 ≤ (analyzeSymptoms 0 feverRec).confidence ∧
    (analyzeSymptoms 0 feverRec).confidence ≤ 1 :=
  c8_clamping 0 feverRec (by norm_num) (by norm_num) (by decide)

/-! ### The risk-score formula of the specification -/

/-- The eleven-entry weight table as the specification lists it (the
source table additionally contains `severe_headache`). -/
def claimedWeights : List (String × ℚ) :=
  [("fever", 3 / 10),
   ("chest_pain", 4 / 10),
   ("shortness_of_breath", 3 / 10),
   ("dizziness", 2 / 10),
   ("cough", 15 / 100),
   ("headache", 1 / 10),
   ("fatigue", 1 / 10),
   ("nausea", 15 / 100),
   ("vomiting", 2 / 10),
   ("diarrhea", 15 / 100),
   ("abdominal_pain", 2 / 10)]

/-- Lookup in the specification table; absent names contribute 0. -/
def claimedWeightOf (n : String) : ℚ :=
  ((claimedWeights.find? (fun p => p.1 == n)).map (fun p => p.2)).getD 0

/-- The specification wording of the temperature penalty: +0.20 if the
supplied temperature exceeds 102. -/
def claimTempPenalty (v : Option ℚ) : ℚ :=
  match v with
  | some t => if 102 < t then 2 / 10 else 0
  | none => 0

/-- The specification wording of the heart-rate penalty: +0.10 above
100 bpm. -/
def claimHrPenalty (v : Option ℚ) : ℚ :=
  match v with
  | some h => if 100 < h then 1 / 10 else 0
  | none => 0

/-- The specification wording of the oxygen-saturation penalty: +0.30
below 95 percent. -/
def claimO2Penalty (v : Option ℚ) : ℚ :=
  match v with
  | some x => if x < 95 then 3 / 10 else 0
  | none => 0

/-- The risk score exactly as the claim words it, over the claimed
eleven-entry table. -/
def specRiskScore (r : SymptomRecord) : ℚ :=
  round3 (min (1 / 10 + ((lowerNames r).map claimedWeightOf).sum
    + claimTempPenalty r.vitalSigns.temperature
    + claimHrPenalty r.vitalSigns.heartRate
    + claimO2Penalty r.vitalSigns.oxygenSaturation) 1)

/-- The risk-score formula amended to use the full source table, which
also carries `severe_headache` at weight 0.20. -/
def amendedRiskScore (r : SymptomRecord) : ℚ :=
  round3 (min (1 / 10 + ((lowerNames r).map weightOf).sum
    + claimTempPenalty r.vitalSigns.temperature
    + claimHrPenalty r.vitalSigns.heartRate
    + claimO2Penalty r.vitalSigns.oxygenSaturation) 1)

/-- A valid single-symptom report naming `severe_headache`, which the
source weight table scores at 0.20 but the specification table omits. -/
def severeHeadacheRec : SymptomRecord :=
  { symptoms := [⟨"severe_headache", 5, ⟨1, DurationUnit.days⟩⟩] }

/-- C2, counterexample: on the valid duplicate-free report consisting of
the single symptom `severe_headache`, the code returns risk 0.30 while
the formula over the specification table gives 0.10. -/
theorem c2_counterexample :
    severeHeadacheRec.isValid = true ∧
    (lowerNames severeHeadacheRec).Nodup ∧
    (analyzeSymptoms 0 severeHeadacheRec).riskScore ≠ specRiskScore severeHeadacheRec := by
  refine ⟨by decide, by decide, ?_⟩
  have h1 : (analyzeSymptoms 0 severeHeadacheRec).riskScore = 3 / 10 := by
    simp [analyzeSymptoms, severeHeadacheRec, lowerNames, jsToLower, charToLower,
      symptomRisk, weightOf, symptomWeights, tempPenalty, hrPenalty, o2Penalty,
      round3, jsRound, List.find?, List.foldl]
    norm_num [Rat.floor]
  have h2 : specRiskScore severeHeadacheRec = 1 / 10 := by
    simp [specRiskScore, severeHeadacheRec, lowerNames, jsToLower, charToLower,
      claimedWeightOf, claimedWeights, claimTempPenalty, claimHrPenalty,
      claimO2Penalty, round3, jsRound, List.find?]
    norm_num [Rat.floor]
  rw [h1, h2]
  norm_num

theorem tempPenalty_eq_claim (v : Option ℚ)
    (h : ∀ t, v = some t → 90 ≤ t) : tempPenalty v = claimTempPenalty v := by
  cases v with
  | none => rfl
  | some t =>
    simp only [tempPenalty, claimTempPenalty]
    rw [if_pos]
    intro ht
    have := h t rfl
    rw [ht] at this
    norm_num at this

theorem hrPenalty_eq_claim (v : Option ℚ)
    (h : ∀ x, v = some x → 30 ≤ x) : hrPenalty v = claimHrPenalty v := by
  cases v with
  | none => rfl
  | some x =>
    simp only [hrPenalty, claimHrPenalty]
    rw [if_pos]
    intro hx
    have := h x rfl
    rw [hx] at this
    norm_num at this

theorem o2Penalty_eq_claim (v : Option ℚ)
    (h : ∀ x, v = some x → 70 ≤ x) : o2Penalty v = claimO2Penalty v := by
  cases v with
  | none => rfl
  | some x =>
    simp only [o2Penalty, claimO2Penalty]
    rw [if_pos]
    intro hx
    have := h x rfl
    rw [hx] at this
    norm_num at this

/-- C2, amended: on a valid report with pairwise-distinct lower-cased
symptom names, the returned risk score equals the specification formula
extended with the `severe_headache` table entry of the source. -/
theorem c2_risk_formula (rand : ℚ) (r : SymptomRecord)
    (hv : r.isValid = true) (hnd : (lowerNames r).Nodup) :
    (analyzeSymptoms rand r).riskScore = amendedRiskScore r := by
  obtain ⟨hT, hH, hO⟩ := isValid_vitals r hv
  show round3 (min (symptomRisk (lowerNames r)
      + tempPenalty r.vitalSigns.temperature
      + hrPenalty r.vitalSigns.heartRate
      + o2Penalty r.vitalSigns.oxygenSaturation) 1) = amendedRiskScore r
  rw [symptomRisk_eq,
    tempPenalty_eq_claim _ (fun t ht => (hT t ht).1),
    hrPenalty_eq_claim _ (fun x hx => (hH x hx).1),
    o2Penalty_eq_claim _ (fun x hx => (hO x hx).1)]
  rfl

/-- A valid report with distinct names and out-of-range vitals used to
instantiate the amended risk formula. -/
def vitalsRec : SymptomRecord :=
  { symptoms := [⟨"fever", 5, ⟨1, DurationUnit.days⟩⟩,
                 ⟨"cough", 3, ⟨2, DurationUnit.hours⟩⟩]
    vitalSigns := { temperature := some 103, heartRate := some 110,
                    oxygenSaturation := some 92 } }

theorem c2_risk_formula_witness :
    vitalsRec.isValid = true ∧
    (lowerNames vitalsRec).Nodup ∧
    (analyzeSymptoms 0 vitalsRec).riskScore = amendedRiskScore vitalsRec :=
  ⟨by decide, by decide, c2_risk_formula 0 vitalsRec (by decide) (by decide)⟩

/-! ### Determinism of the pipeline up to the random confidence draw -/

theorem shouldFlag_conf_irrel (riskScore c1 c2 : ℚ) (r : SymptomRecord)
    (h1 : ¬ c1 < 3 / 10) (h2 : ¬ c2 < 3 / 10) :
    shouldFlagForReview riskScore c1 r = shouldFlagForReview riskScore c2 r := by
  unfold shouldFlagForReview
  split_ifs <;> simp_all

/-- C9, counterexample: two invocations of `analyzeSymptoms` on the same
report differ when the `Math.random()` draws differ, because the
confidence field is 0.6 plus 0.3 times the draw. -/
theorem c9_counterexample :
    analyzeSymptoms 0 feverRec ≠ analyzeSymptoms (1 / 2) feverRec := by
  intro h
  have hc := congrArg AnalysisResult.confidence h
  simp only [analyzeSymptoms] at hc
  norm_num [round3, jsRound, Rat.floor] at hc

/-- C9, amended: for any two random draws in `[0, 1)`, the two analyses
of one report agree on risk score, predicted syndrome, recommendations
and review flag; only the confidence field depends on the draw. -/
theorem c9_determinism (r1 r2 : ℚ) (r : SymptomRecord)
    (h10 : 0 ≤ r1) (h11 : r1 < 1) (h20 : 0 ≤ r2) (h21 : r2 < 1) :
    (analyzeSymptoms r1 r).riskScore = (analyzeSymptoms r2 r).riskScore ∧
    (analyzeSymptoms r1 r).predictedSyndrome = (analyzeSymptoms r2 r).predictedSyndrome ∧
    (analyzeSymptoms r1 r).recommendations = (analyzeSymptoms r2 r).recommendations ∧
    (analyzeSymptoms r1 r).flaggedForReview = (analyzeSymptoms r2 r).flaggedForReview := by
  refine ⟨rfl, rfl, rfl, ?_⟩
  show shouldFlagForReview (rawRiskScore r) (6 / 10 + r1 * (3 / 10)) r =
    shouldFlagForReview (rawRiskScore r) (6 / 10 + r2 * (3 / 10)) r
  apply shouldFlag_conf_irrel
  · have := mul_nonneg h10 (show (0 : ℚ) ≤ 3 / 10 by norm_num)
    intro hlt
    linarith
  · have := mul_nonneg h20 (show (0 : ℚ) ≤ 3 / 10 by norm_num)
    intro hlt
    linarith

theorem c9_determinism_witness :
    (analyzeSymptoms 0 feverRec).riskScore = (analyzeSymptoms (1 / 2) feverRec).riskScore ∧
    (analyzeSymptoms 0 feverRec).predictedSyndrome =
      (analyzeSymptoms (1 / 2) feverRec).predictedSyndrome ∧
    (analyzeSymptoms 0 feverRec).recommendations =
      (analyzeSymptoms (1 / 2) feverRec).recommendations ∧
    (analyzeSymptoms 0 feverRec).flaggedForReview =
      (analyzeSymptoms (1 / 2) feverRec).flaggedForReview :=
  c9_determinism 0 (1 / 2) feverRec (by norm_num) (by norm_num) (by norm_num) (by norm_num)

/-! ### Duplicate symptom names double-count -/

/-- A valid report naming `fever` twice; its name-deduplicated
counterpart is `feverRec`. -/
def feverDupRec : SymptomRecord :=
  { symptoms := [⟨"fever", 5, ⟨1, DurationUnit.days⟩⟩,
                 ⟨"fever", 5, ⟨1, DurationUnit.days⟩⟩] }

/-- C1: the source applies the weight of every occurrence of a name, so
the duplicated-fever report scores 0.7 while its deduplicated counterpart
scores 0.4 — duplication does increase the risk score, contrary to the
stated dedupe-before-scoring rule. -/
theorem c1_duplicates_increase_risk :
    feverDupRec.isValid = true ∧
    (lowerNames feverDupRec).dedup = lowerNames feverRec ∧
    feverDupRec.vitalSigns = feverRec.vitalSigns ∧
    feverDupRec.additionalInfo = feverRec.additionalInfo ∧
    (analyzeSymptoms 0 feverDupRec).riskScore = 7 / 10 ∧
    (analyzeSymptoms 0 feverRec).riskScore = 4 / 10 ∧
    (analyzeSymptoms 0 feverRec).riskScore < (analyzeSymptoms 0 feverDupRec).riskScore := by
  have hdup : (analyzeSymptoms 0 feverDupRec).riskScore = 7 / 10 := by
    simp [analyzeSymptoms, feverDupRec, lowerNames, jsToLower, charToLower,
      symptomRisk, weightOf, symptomWeights, tempPenalty, hrPenalty, o2Penalty,
      round3, jsRound, List.find?, List.foldl]
    norm_num [Rat.floor]
  have hone : (analyzeSymptoms 0 feverRec).riskScore = 4 / 10 := by
    simp [analyzeSymptoms, feverRec, lowerNames, jsToLower, charToLower,
      symptomRisk, weightOf, symptomWeights, tempPenalty, hrPenalty, o2Penalty,
      round3, jsRound, List.find?, List.foldl]
    norm_num [Rat.floor]
  refine ⟨by decide, by decide, by decide, by decide, hdup, hone, ?_⟩
  rw [hdup, hone]
  norm_num

/-- A valid low-severity report whose only notable vital is an oxygen
saturation of 90. -/
def lowO2Rec : SymptomRecord :=
  { symptoms := [⟨"headache", 2, ⟨1, DurationUnit.days⟩⟩]
    vitalSigns := { oxygenSaturation := some 90 } }

theorem c6_flag_iff_witness :
    shouldFlagForReview 0 1 lowO2Rec = true :=
  c6_flag_iff.2.1 0 1 lowO2Rec rfl

theorem c7_recommendation_tiers_witness :
    (generateRecommendations (85 / 100) ("unknown") feverRec).take 2 =
      ["Seek immediate medical attention", "Consider emergency room visit"] :=
  (c7_recommendation_tiers.2.1 (85 / 100) ("unknown") feverRec).1 (by norm_num)

theorem c10_unreachable_syndrome_blocks_witness :
    syndromeBlock (analyzeSymptoms 0 feverRec).predictedSyndrome =
      ["Follow general illness care guidelines"] :=
  c10_unreachable_syndrome_blocks.1 0 feverRec (by decide)

/-! ### Outbreak uniqueness invariant -/

/-- At most one active outbreak per `(diseaseName, location)` pair: no two
distinct positions of the collection hold active outbreaks with the same
pair. -/
def ActiveUniq (obs : List Outbreak) : Prop :=
  obs.Pairwise (fun a b =>
    ¬ (a.isActive = true ∧ b.isActive = true ∧
       a.diseaseName = b.diseaseName ∧ a.location = b.location))

theorem hasActiveOutbreak_iff (obs : List Outbreak) (d l : String) :
    hasActiveOutbreak obs d l = true ↔
      ∃ o ∈ obs, o.diseaseName = d ∧ o.location = l ∧ o.isActive = true := by
  unfold hasActiveOutbreak
  rw [List.any_eq_true]
  constructor
  · rintro ⟨o, ho, hcond⟩
    simp only [Bool.and_eq_true, beq_iff_eq] at hcond
    exact ⟨o, ho, hcond.1.1, hcond.1.2, hcond.2⟩
  · rintro ⟨o, ho, h1, h2, h3⟩
    exact ⟨o, ho, by simp [h1, h2, h3]⟩

theorem detectLoop_final_sublist (threshold timeWindow : ℕ) :
    ∀ (gs : List OutbreakGroup) (obs : List Outbreak),
      ∃ extra, (detectLoop threshold timeWindow gs obs).2 = obs ++ extra := by
  intro gs
  induction gs with
  | nil => exact fun obs => ⟨[], by simp [detectLoop]⟩
  | cons g rest ih =>
    intro obs
    simp only [detectLoop]
    split_ifs with hact
    · exact ih obs
    · obtain ⟨extra, hextra⟩ := ih (obs ++ [mkOutbreak threshold timeWindow g])
      exact ⟨mkOutbreak threshold timeWindow g :: extra, by simp [hextra]⟩

theorem detectLoop_new_no_active_pair (threshold timeWindow : ℕ) :
    ∀ (gs : List OutbreakGroup) (obs : List Outbreak) (d l : String),
      hasActiveOutbreak obs d l = true →
      ∀ o ∈ (detectLoop threshold timeWindow gs obs).1,
        ¬ (o.diseaseName = d ∧ o.location = l) := by
  intro gs
  induction gs with
  | nil =>
    intro obs d l hact o ho
    simp [detectLoop] at ho
  | cons g rest ih =>
    intro obs d l hact o ho
    simp only [detectLoop] at ho
    split_ifs at ho with hg
    · exact ih obs d l hact o ho
    · rcases List.mem_cons.mp ho with rfl | ho'
      · rintro ⟨hd, hl⟩
        obtain ⟨w, hw, hwd, hwl, hwa⟩ := (hasActiveOutbreak_iff obs d l).mp hact
        apply hg
        rw [hasActiveOutbreak_iff]
        exact ⟨w, hw, hwd.trans hd.symm, hwl.trans hl.symm, hwa⟩
      · have hact' : hasActiveOutbreak (obs ++ [mkOutbreak threshold timeWindow g]) d l = true := by
          rw [hasActiveOutbreak_iff] at hact ⊢
          obtain ⟨w, hw, hrest⟩ := hact
          exact ⟨w, List.mem_append_left _ hw, hrest⟩
        exact ih _ d l hact' o ho'

theorem detectLoop_preserves_activeUniq (threshold timeWindow : ℕ) :
    ∀ (gs : List OutbreakGroup) (obs : List Outbreak),
      ActiveUniq obs → ActiveUniq (detectLoop threshold timeWindow gs obs).2 := by
  intro gs
  induction gs with
  | nil => exact fun obs h => h
  | cons g rest ih =>
    intro obs huniq
    simp only [detectLoop]
    split_ifs with hact
    · exact ih obs huniq
    · apply ih
      unfold ActiveUniq
      rw [List.pairwise_append]
      refine ⟨huniq, by simp, ?_⟩
      intro a ha b hb
      simp only [List.mem_singleton] at hb
      subst hb
      rintro ⟨haa, hba, hd, hl⟩
      apply hact
      rw [hasActiveOutbreak_iff]
      exact ⟨a, ha, hd, hl, haa⟩

/-- One sequential run of `detectNewOutbreaks`, described by its
parameters: the wall-clock time, the threshold and window, and the stored
disease cases it scans. -/
structure DetectionRun where
  now : ℤ
  threshold : ℕ
  timeWindow : ℕ
  cases : List DiseaseCase
  deriving Repr

/-- The outbreak collection after executing a sequence of detection runs
in order. -/
def runAll (runs : List DetectionRun) (obs : List Outbreak) : List Outbreak :=
  runs.foldl
    (fun cur p => (detectNewOutbreaks p.now p.threshold p.timeWindow p.cases cur).2) obs

/-- C4: when the collection already holds an active outbreak for a
`(diseaseName, location)` pair, a run of `detectNewOutbreaks` creates no
outbreak for that pair; consequently every sequence of sequential
detection runs preserves the at-most-one-active-outbreak-per-pair
invariant. -/
theorem c4_active_uniqueness :
    (∀ (now : ℤ) (threshold timeWindow : ℕ) (cases : List DiseaseCase)
       (obs : List Outbreak) (d l : String),
      (∃ o ∈ obs, o.diseaseName = d ∧ o.location = l ∧ o.isActive = true) →
      ∀ o ∈ (detectNewOutbreaks now threshold timeWindow cases obs).1,
        ¬ (o.diseaseName = d ∧ o.location = l)) ∧
    (∀ (runs : List DetectionRun) (obs : List Outbreak),
      ActiveUniq obs → ActiveUniq (runAll runs obs)) := by
  constructor
  · intro now threshold timeWindow cases obs d l hex
    exact detectLoop_new_no_active_pair threshold timeWindow _ obs d l
      ((hasActiveOutbreak_iff obs d l).mpr hex)
  · intro runs
    induction runs with
    | nil => exact fun obs h => h
    | cons p rest ih =>
      intro obs huniq
      exact ih _ (detectLoop_preserves_activeUniq p.threshold p.timeWindow _ obs huniq)

/-- A stored active flu outbreak at one clinic, used to instantiate the
uniqueness theorem. -/
def fluOutbreak : Outbreak :=
  { diseaseName := "flu"
    location := "Clinic A"
    startDate := 0
    totalCases := 5
    emergencyCases := 0
    criticalCases := 0
    averageConfidence := 9 / 10
    threshold := 3
    timeWindow := 7
    severity := "medium"
    affectedPatients := [1, 2, 3, 4, 5] }

/-- A stored flu disease case at the same clinic. -/
def fluCase : DiseaseCase :=
  { id := 1
    diseaseName := "flu"
    location := "Clinic A"
    caseDate := 3
    status := CaseStatus.detected
    isEmergency := false
    severity := "medium"
    confidence := 9 / 10 }

theorem c4_active_uniqueness_witness :
    (∀ o ∈ (detectNewOutbreaks 7 1 7 [fluCase] [fluOutbreak]).1,
      ¬ (o.diseaseName = "flu" ∧ o.location = "Clinic A")) ∧
    ActiveUniq (runAll [⟨7, 1, 7, [fluCase]⟩] [fluOutbreak]) :=
  ⟨c4_active_uniqueness.1 7 1 7 [fluCase] [fluOutbreak] "flu" "Clinic A"
      ⟨fluOutbreak, by simp, rfl, rfl, rfl⟩,
   c4_active_uniqueness.2 [⟨7, 1, 7, [fluCase]⟩] [fluOutbreak]
      (List.pairwise_singleton _ _)⟩

/-! ### Functional characterization of outbreak detection -/

/-- The `(diseaseName, location)` pair of a persisted outbreak. -/
def outbreakKey (o : Outbreak) : String × String :=
  (o.diseaseName, o.location)

/-- The `(diseaseName, location)` pair of an aggregation group. -/
def groupKey (g : OutbreakGroup) : String × String :=
  (g.diseaseName, g.location)

/-- The case filter as the claim words it: status detected or confirmed
and case date within the trailing window `[now − timeWindow, now]`. The
source filter has no upper bound. -/
def claimedConsidered (now : ℤ) (timeWindow : ℕ) (cases : List DiseaseCase) :
    List DiseaseCase :=
  cases.filter (fun c =>
    decide (now - timeWindow ≤ c.caseDate) && decide (c.caseDate ≤ now) &&
    (c.status == CaseStatus.detected || c.status == CaseStatus.confirmed))

theorem mem_groupKeys_iff (cs : List DiseaseCase) (d l : String) :
    (d, l) ∈ groupKeys cs ↔ ∃ c ∈ cs, c.diseaseName = d ∧ c.location = l := by
  unfold groupKeys
  rw [List.mem_dedup, List.mem_map]
  constructor
  · rintro ⟨c, hc, heq⟩
    rw [Prod.mk.injEq] at heq
    exact ⟨c, hc, heq.1, heq.2⟩
  · rintro ⟨c, hc, hd, hl⟩
    exact ⟨c, hc, by rw [hd, hl]⟩

theorem groupMembers_key (cs : List DiseaseCase) (d l : String) :
    ∀ c ∈ groupMembers (d, l) cs, c ∈ cs ∧ c.diseaseName = d ∧ c.location = l := by
  intro c hc
  unfold groupMembers at hc
  rw [List.mem_filter] at hc
  obtain ⟨hmem, hcond⟩ := hc
  simp only [Bool.and_eq_true, beq_iff_eq] at hcond
  exact ⟨hmem, hcond.1, hcond.2⟩

theorem groupMembers_nonempty_mem_keys (cs : List DiseaseCase) (d l : String)
    (h : 1 ≤ (groupMembers (d, l) cs).length) : (d, l) ∈ groupKeys cs := by
  obtain ⟨c, hc⟩ := List.exists_mem_of_length_pos h
  obtain ⟨hmem, hd, hl⟩ := groupMembers_key cs d l c hc
  exact (mem_groupKeys_iff cs d l).mpr ⟨c, hmem, hd, hl⟩

theorem mem_potential_iff (now : ℤ) (threshold timeWindow : ℕ)
    (cases : List DiseaseCase) (g : OutbreakGroup) :
    g ∈ potentialOutbreaks now threshold timeWindow cases ↔
      ∃ k ∈ groupKeys (consideredCases now timeWindow cases),
        g = mkGroup k (consideredCases now timeWindow cases) ∧
        threshold ≤ g.caseCount := by
  unfold potentialOutbreaks
  rw [List.mem_filter, List.mem_map]
  constructor
  · rintro ⟨⟨k, hk, rfl⟩, hcond⟩
    exact ⟨k, hk, rfl, by simpa using hcond⟩
  · rintro ⟨k, hk, rfl, hcond⟩
    exact ⟨⟨k, hk, rfl⟩, by simpa using hcond⟩

theorem mkGroup_key (k : String × String) (cs : List DiseaseCase) :
    groupKey (mkGroup k cs) = k :=
  rfl

theorem map_groupKey_mkGroup (cs : List DiseaseCase) :
    ∀ ks : List (String × String), ks.map (fun k => groupKey (mkGroup k cs)) = ks := by
  intro ks
  induction ks with
  | nil => rfl
  | cons k rest ih => simp [ih, mkGroup_key]

theorem potential_keys_nodup (now : ℤ) (threshold timeWindow : ℕ)
    (cases : List DiseaseCase) :
    ((potentialOutbreaks now threshold timeWindow cases).map groupKey).Nodup := by
  unfold potentialOutbreaks
  have hsub : ((((groupKeys (consideredCases now timeWindow cases)).map
        (fun k => mkGroup k (consideredCases now timeWindow cases))).filter
          (fun g => threshold ≤ g.caseCount)).map groupKey).Sublist
      (((groupKeys (consideredCases now timeWindow cases)).map
        (fun k => mkGroup k (consideredCases now timeWindow cases))).map groupKey) :=
    (List.filter_sublist _).map groupKey
  have heq : ((groupKeys (consideredCases now timeWindow cases)).map
        (fun k => mkGroup k (consideredCases now timeWindow cases))).map groupKey =
      groupKeys (consideredCases now timeWindow cases) := by
    rw [List.map_map]
    exact map_groupKey_mkGroup _ _
  rw [heq] at hsub
  exact hsub.nodup (List.nodup_dedup _)

theorem hasActive_append_irrelevant (obs : List Outbreak) (ob : Outbreak)
    (d l : String) (h : ¬ (ob.diseaseName = d ∧ ob.location = l)) :
    hasActiveOutbreak (obs ++ [ob]) d l = hasActiveOutbreak obs d l := by
  unfold hasActiveOutbreak
  rw [List.any_append]
  have hf : ([ob].any fun o => o.diseaseName == d && o.location == l && o.isActive) = false := by
    simp only [List.any_cons, List.any_nil, Bool.or_false]
    by_cases hd : ob.diseaseName = d
    · by_cases hl : ob.location = l
      · exact absurd ⟨hd, hl⟩ h
      · simp [hl]
    · simp [hd]
  rw [hf, Bool.or_false]

theorem detectLoop_new_mem (threshold timeWindow : ℕ) :
    ∀ (gs : List OutbreakGroup) (obs : List Outbreak),
      (gs.map groupKey).Nodup →
      ∀ o : Outbreak,
        (o ∈ (detectLoop threshold timeWindow gs obs).1 ↔
          ∃ g ∈ gs, o = mkOutbreak threshold timeWindow g ∧
            hasActiveOutbreak obs g.diseaseName g.location = false) := by
  intro gs
  induction gs with
  | nil =>
    intro obs hnd o
    simp [detectLoop]
  | cons g rest ih =>
    intro obs hnd o
    have hhead : groupKey g ∉ rest.map groupKey := by
      rw [List.map_cons, List.nodup_cons] at hnd
      exact hnd.1
    have hrest : (rest.map groupKey).Nodup := by
      rw [List.map_cons, List.nodup_cons] at hnd
      exact hnd.2
    simp only [detectLoop]
    split_ifs with hact
    · rw [ih obs hrest o]
      constructor
      · rintro ⟨g', hg', ho, hfalse⟩
        exact ⟨g', List.mem_cons_of_mem g hg', ho, hfalse⟩
      · rintro ⟨g', hg', ho, hfalse⟩
        rcases List.mem_cons.mp hg' with rfl | hg''
        · rw [hact] at hfalse
          cases hfalse
        · exact ⟨g', hg'', ho, hfalse⟩
    · have hactf : hasActiveOutbreak obs g.diseaseName g.location = false :=
        Bool.eq_false_iff.mpr hact
      have hirrel : ∀ g' ∈ rest,
          hasActiveOutbreak (obs ++ [mkOutbreak threshold timeWindow g])
              g'.diseaseName g'.location =
            hasActiveOutbreak obs g'.diseaseName g'.location := by
        intro g' hg'
        apply hasActive_append_irrelevant
        rintro ⟨hd, hl⟩
        apply hhead
        have : groupKey g = groupKey g' := Prod.ext hd hl
        rw [this]
        exact List.mem_map_of_mem groupKey hg'
      constructor
      · intro ho
        rcases List.mem_cons.mp ho with rfl | ho'
        · exact ⟨g, List.mem_cons_self g rest, rfl, hactf⟩
        · obtain ⟨g', hg', hoo, hfalse⟩ :=
            (ih (obs ++ [mkOutbreak threshold timeWindow g]) hrest o).mp ho'
          exact ⟨g', List.mem_cons_of_mem g hg', hoo,
            (hirrel g' hg').symm.trans hfalse⟩
      · rintro ⟨g', hg', hoo, hfalse⟩
        rcases List.mem_cons.mp hg' with rfl | hg''
        · rw [hoo]
          exact List.mem_cons_self _ _
        · apply List.mem_cons_of_mem
          exact (ih (obs ++ [mkOutbreak threshold timeWindow g]) hrest o).mpr
            ⟨g', hg'', hoo, (hirrel g' hg'').trans hfalse⟩

theorem detectLoop_keys_sublist (threshold timeWindow : ℕ) :
    ∀ (gs : List OutbreakGroup) (obs : List Outbreak),
      ((detectLoop threshold timeWindow gs obs).1.map outbreakKey).Sublist
        (gs.map groupKey) := by
  intro gs
  induction gs with
  | nil =>
    intro obs
    simp [detectLoop]
  | cons g rest ih =>
    intro obs
    simp only [detectLoop]
    split_ifs with hact
    · exact (ih obs).cons (groupKey g)
    · exact (ih (obs ++ [mkOutbreak threshold timeWindow g])).cons₂ (groupKey g)

/-- A non-emergency flu case at Clinic A, dated `dte`. -/
def fluCaseAt (i : ℕ) (dte : ℤ) : DiseaseCase :=
  { id := i
    diseaseName := "flu"
    location := "Clinic A"
    caseDate := dte
    status := CaseStatus.detected
    isEmergency := false
    severity := "low"
    confidence := 9 / 10 }

/-- Five non-emergency flu cases at Clinic A dated within the last seven
days of time 7. -/
def fiveFluCases : List DiseaseCase :=
  [fluCaseAt 1 1, fluCaseAt 2 2, fluCaseAt 3 3, fluCaseAt 4 4, fluCaseAt 5 5]

/-- C5, amended: a detection run emits one outbreak exactly for each
`(diseaseName, location)` group whose count of stored cases with status
detected or confirmed and `caseDate ≥ now − timeWindow` (the source filter
has no upper date bound) reaches the threshold and which has no
pre-existing active outbreak; each emitted outbreak is active, carries the
group case and emergency counts, and is classified by the stated severity
thresholds; five qualifying flu cases at Clinic A with threshold 3 yield
exactly one outbreak with totalCases 5 and severity medium. -/
theorem c5_detection :
    (∀ (now : ℤ) (threshold timeWindow : ℕ) (cases : List DiseaseCase)
       (obs : List Outbreak), 1 ≤ threshold → 1 ≤ timeWindow →
      ((∀ d l : String,
         (∃ o ∈ (detectNewOutbreaks now threshold timeWindow cases obs).1,
            o.diseaseName = d ∧ o.location = l) ↔
           (threshold ≤ (groupMembers (d, l) (consideredCases now timeWindow cases)).length ∧
            ¬ ∃ o ∈ obs, o.diseaseName = d ∧ o.location = l ∧ o.isActive = true)) ∧
       ((detectNewOutbreaks now threshold timeWindow cases obs).1.map outbreakKey).Nodup ∧
       (∀ o ∈ (detectNewOutbreaks now threshold timeWindow cases obs).1,
          o.totalCases = (groupMembers (o.diseaseName, o.location)
            (consideredCases now timeWindow cases)).length ∧
          o.emergencyCases = ((groupMembers (o.diseaseName, o.location)
            (consideredCases now timeWindow cases)).filter (fun c => c.isEmergency)).length ∧
          o.severity = outbreakSeverity o.totalCases o.emergencyCases ∧
          o.isActive = true))) ∧
    (detectNewOutbreaks 7 3 7 fiveFluCases []).1.length = 1 ∧
    (∀ o ∈ (detectNewOutbreaks 7 3 7 fiveFluCases []).1,
       o.diseaseName = "flu" ∧ o.location = "Clinic A" ∧
       o.totalCases = 5 ∧ o.severity = "medium") := by
  refine ⟨?_, by decide, by decide⟩
  intro now threshold timeWindow cases obs hth hW
  refine ⟨?_, ?_, ?_⟩
  · intro d l
    constructor
    · rintro ⟨o, ho, hd, hl⟩
      obtain ⟨g, hg, rfl, hfalse⟩ :=
        (detectLoop_new_mem threshold timeWindow _ obs
          (potential_keys_nodup now threshold timeWindow cases) o).mp ho
      obtain ⟨k, hk, rfl, hcount⟩ :=
        (mem_potential_iff now threshold timeWindow cases g).mp hg
      have hd1 : k.1 = d := hd
      have hl1 : k.2 = l := hl
      have hk2 : k = (d, l) := by
        rw [← hd1, ← hl1]
      constructor
      · rw [← hk2]
        exact hcount
      · rintro ⟨o', ho', h1, h2, h3⟩
        have htrue : hasActiveOutbreak obs
            (mkGroup k (consideredCases now timeWindow cases)).diseaseName
            (mkGroup k (consideredCases now timeWindow cases)).location = true := by
          rw [hasActiveOutbreak_iff]
          exact ⟨o', ho', h1.trans hd1.symm, h2.trans hl1.symm, h3⟩
        rw [hfalse] at htrue
        cases htrue
    · rintro ⟨hcount, hnoact⟩
      have hkmem : (d, l) ∈ groupKeys (consideredCases now timeWindow cases) :=
        groupMembers_nonempty_mem_keys _ d l (le_trans hth hcount)
      have hgmem : mkGroup (d, l) (consideredCases now timeWindow cases) ∈
          potentialOutbreaks now threshold timeWindow cases :=
        (mem_potential_iff now threshold timeWindow cases _).mpr
          ⟨(d, l), hkmem, rfl, hcount⟩
      have hfalse : hasActiveOutbreak obs d l = false := by
        rw [Bool.eq_false_iff]
        intro htrue
        exact hnoact ((hasActiveOutbreak_iff obs d l).mp htrue)
      refine ⟨mkOutbreak threshold timeWindow
        (mkGroup (d, l) (consideredCases now timeWindow cases)), ?_, rfl, rfl⟩
      exact (detectLoop_new_mem threshold timeWindow _ obs
        (potential_keys_nodup now threshold timeWindow cases) _).mpr
        ⟨mkGroup (d, l) (consideredCases now timeWindow cases), hgmem, rfl, hfalse⟩
  · exact (detectLoop_keys_sublist threshold timeWindow _ obs).nodup
      (potential_keys_nodup now threshold timeWindow cases)
  · intro o ho
    obtain ⟨g, hg, rfl, -⟩ :=
      (detectLoop_new_mem threshold timeWindow _ obs
        (potential_keys_nodup now threshold timeWindow cases) o).mp ho
    obtain ⟨k, hk, rfl, -⟩ :=
      (mem_potential_iff now threshold timeWindow cases g).mp hg
    exact ⟨rfl, rfl, rfl, rfl⟩

/-- A flu case dated five days in the future of the detection run. -/
def futureFluCase : DiseaseCase :=
  { id := 9
    diseaseName := "flu"
    location := "Clinic A"
    caseDate := 12
    status := CaseStatus.detected
    isEmergency := false
    severity := "low"
    confidence := 1 / 2 }

/-- C5, counterexample: at time 0 with a seven-day window, a case dated
at day 12 lies outside the trailing window `[−7, 0]`, so under the
claimed filter no case is considered and no group can reach threshold 1;
the source filter has no upper bound, and the run emits an outbreak for
the future-dated case. -/
theorem c5_counterexample :
    claimedConsidered 0 7 [futureFluCase] = [] ∧
    (detectNewOutbreaks 0 1 7 [futureFluCase] []).1.length = 1 ∧
    (∀ o ∈ (detectNewOutbreaks 0 1 7 [futureFluCase] []).1,
       o.diseaseName = "flu" ∧ o.location = "Clinic A" ∧ o.totalCases = 1) := by
  decide

theorem c5_detection_witness :
    ((detectNewOutbreaks 7 3 7 fiveFluCases []).1.map outbreakKey).Nodup :=
  (c5_detection.1 7 3 7 fiveFluCases [] (by decide) (by decide)).2.1

end HealthPortal
